import Mathlib

/-!
Verification of the zeturn error-handling library (src/src/utils/helpers.ts).

The library is embedded shallowly: JavaScript runtime values are modelled by
the inductive type `JSVal` (numbers as `Int`, objects as association lists of
fields in insertion order), JavaScript truthiness by `truthy`, optional-chained
property access `(v as any)?.k` by `getField`, and the object spread
`{ ...o, k: v }` by `setJS`.  Every function of the source file is translated
into a total Lean function over this model.
-/

/-- A JavaScript runtime value, as far as the library inspects values:
`undefined`, `null`, booleans, numbers, strings and plain objects
(association lists of named fields). -/
inductive JSVal where
  | undefined : JSVal
  | null : JSVal
  | bool : Bool → JSVal
  | num : Int → JSVal
  | str : String → JSVal
  | obj : List (String × JSVal) → JSVal

/-- JavaScript truthiness: `undefined`, `null`, `false`, `0` and the empty
string are falsy; every other value (every object included) is truthy. -/
def truthy : JSVal → Bool
  | .undefined => false
  | .null => false
  | .bool b => b
  | .num n => !(n == 0)
  | .str s => !(s == "")
  | .obj _ => true

/-- Field lookup in an object's field list; an absent field reads as
`undefined`, as in JavaScript. -/
def lookupJS : List (String × JSVal) → String → JSVal
  | [], _ => .undefined
  | (k, v) :: rest, key => if k = key then v else lookupJS rest key

/-- Property access `(v as any)?.k`: reads a field of an object; on any
non-object value (null, undefined, primitives) it yields `undefined` and
never throws, exactly as optional chaining does in the source. -/
def getField (v : JSVal) (key : String) : JSVal :=
  match v with
  | .obj fields => lookupJS fields key
  | _ => .undefined

/-- The object spread `{ ...o, key: v }`: overwrites the field in place when
present, appends it otherwise. -/
def setJS : List (String × JSVal) → String → JSVal → List (String × JSVal)
  | [], key, v => [(key, v)]
  | (k, w) :: rest, key, v =>
      if k = key then (k, v) :: rest else (k, w) :: setJS rest key v

/-- Whether an object's field list carries a field of the given name
(the JavaScript `key in o` test). -/
def hasKey : List (String × JSVal) → String → Bool
  | [], _ => false
  | (k, _) :: rest, key => k == key || hasKey rest key

/-- Whether a value is a plain object. -/
def isObj : JSVal → Bool
  | .obj _ => true
  | _ => false

/-- The module-level sentinel `NO_ERROR_CODE = "no_error_code"` of the result
module. -/
def NO_ERROR_CODE : String := "no_error_code"

/-- `Ok(data?)` of the result module: builds `{ ok: true, data }`; an omitted
argument is `undefined`. -/
def Ok (data : JSVal := .undefined) : JSVal :=
  .obj [("ok", .bool true), ("data", data)]

/-- `Err(_err)` of the result module: normalizes the error record — a falsy
`code` is replaced by the sentinel `NO_ERROR_CODE` via spread, a falsy `show`
is replaced by `false` via spread — and wraps it as `{ ok: false, err }`.
The argument is the field list of the input record. -/
def Err (e : List (String × JSVal)) : JSVal :=
  let err1 := if truthy (lookupJS e "code") then e
              else setJS e "code" (.str NO_ERROR_CODE)
  let err2 := if truthy (lookupJS err1 "show") then err1
              else setJS err1 "show" (.bool false)
  .obj [("ok", .bool false), ("err", .obj err2)]

/-- The private static sentinel `Zeturn.NOT_FOUND_CODE = "zeturn_unknown"`. -/
def NOT_FOUND_CODE : String := "zeturn_unknown"

/-- The private static sentinel `Zeturn.NOT_FOUND_MSG = "zeturn: unknown"`. -/
def NOT_FOUND_MSG : String := "zeturn: unknown"

/-- An instance of the `Zeturn` class: the two instance fields captured at
construction. -/
structure Zeturn where
  notFoundCode : String
  notFoundMsg : String

/-- The constructor's option object `{ notFoundCode?: string; notFoundMsg?:
string }`: each field may be absent. -/
structure ZeturnOpt where
  notFoundCode : Option String
  notFoundMsg : Option String

/-- JavaScript `opt.field || default` on a possibly-absent string field: an
absent field and the empty string (the only falsy string) fall back to the
default; any other string is kept. -/
def jsOr (v : Option String) (d : String) : String :=
  match v with
  | none => d
  | some s => if s = "" then d else s

/-- The `Zeturn` constructor: `this.notFoundCode = opt.notFoundCode ||
Zeturn.NOT_FOUND_CODE; this.notFoundMsg = opt.notFoundMsg ||
Zeturn.NOT_FOUND_MSG`. -/
def Zeturn.new (opt : ZeturnOpt) : Zeturn :=
  ⟨jsOr opt.notFoundCode NOT_FOUND_CODE, jsOr opt.notFoundMsg NOT_FOUND_MSG⟩

/-- Static `Zeturn.codeFromError`: reads `(error as any)?.code`; a falsy read
yields the static sentinel, otherwise the read value is returned as-is. -/
def Zeturn.staticCodeFromError (error : JSVal) : JSVal :=
  let errCode := getField error "code"
  if truthy errCode then errCode else .str NOT_FOUND_CODE

/-- Instance `codeFromError`: same read, falling back to the instance's
`notFoundCode` field. -/
def Zeturn.codeFromError (z : Zeturn) (error : JSVal) : JSVal :=
  let errCode := getField error "code"
  if truthy errCode then errCode else .str z.notFoundCode

/-- Static `Zeturn.msgFromError`: reads `(error as any)?.message`; a falsy
read yields the static sentinel, otherwise the read value is returned
as-is. -/
def Zeturn.staticMsgFromError (error : JSVal) : JSVal :=
  let errMsg := getField error "message"
  if truthy errMsg then errMsg else .str NOT_FOUND_MSG

/-- Instance `msgFromError`: same read, falling back to the instance's
`notFoundMsg` field. -/
def Zeturn.msgFromError (z : Zeturn) (error : JSVal) : JSVal :=
  let errMsg := getField error "message"
  if truthy errMsg then errMsg else .str z.notFoundMsg

/-! Helper lemmas about the object model. -/

/-- Reading the field just written by a spread yields the written value. -/
theorem lookupJS_setJS_same (o : List (String × JSVal)) (k : String)
    (v : JSVal) : lookupJS (setJS o k v) k = v := by
  induction o with
  | nil => simp [setJS, lookupJS]
  | cons p rest ih =>
    obtain ⟨pk, pv⟩ := p
    by_cases h : pk = k
    · simp [setJS, lookupJS, h]
    · simp [setJS, lookupJS, h, ih]

/-- A spread leaves every other field unchanged. -/
theorem lookupJS_setJS_other (o : List (String × JSVal)) (k key : String)
    (v : JSVal) (h : key ≠ k) :
    lookupJS (setJS o k v) key = lookupJS o key := by
  induction o with
  | nil => simp [setJS, lookupJS, Ne.symm h]
  | cons p rest ih =>
    obtain ⟨pk, pv⟩ := p
    by_cases hp : pk = k
    · subst hp
      simp [setJS, lookupJS, Ne.symm h]
    · by_cases hq : pk = key
      · subst hq
        simp [setJS, lookupJS, hp, h]
      · simp [setJS, lookupJS, hp, hq, ih]

/-- After a spread the written field is present. -/
theorem hasKey_setJS_same (o : List (String × JSVal)) (k : String)
    (v : JSVal) : hasKey (setJS o k v) k = true := by
  induction o with
  | nil => simp [setJS, hasKey]
  | cons p rest ih =>
    obtain ⟨pk, pv⟩ := p
    by_cases h : pk = k
    · simp [setJS, hasKey, h]
    · simp [setJS, hasKey, h, ih]

/-- A spread does not change the presence of any other field. -/
theorem hasKey_setJS_other (o : List (String × JSVal)) (k key : String)
    (v : JSVal) (h : key ≠ k) :
    hasKey (setJS o k v) key = hasKey o key := by
  induction o with
  | nil => simp [setJS, hasKey, Ne.symm h]
  | cons p rest ih =>
    obtain ⟨pk, pv⟩ := p
    by_cases hp : pk = k
    · subst hp
      simp [setJS, hasKey, Ne.symm h]
    · simp [setJS, hasKey, hp, ih]

/-- Whether a value is an object carrying a field of the given name. -/
def hasField (v : JSVal) (key : String) : Bool :=
  match v with
  | .obj fields => hasKey fields key
  | _ => false

/-! The claims. -/

/-- Claim C1: for every input record with a required `msg` string and falsy or
absent `code` and `show`, `Err` returns a failure-tagged record (`ok` is
false) whose `err.msg` equals the input `msg`, whose `err.code` equals the
sentinel "no_error_code", and whose `err.show` equals `false`; after
construction `code` and `show` are present. -/
theorem Err_normalizes_defaults (e : List (String × JSVal)) (m : String)
    (hmsg : lookupJS e "msg" = JSVal.str m)
    (hcode : truthy (lookupJS e "code") = false)
    (hshow : truthy (lookupJS e "show") = false) :
    getField (Err e) "ok" = JSVal.bool false ∧
    getField (getField (Err e) "err") "msg" = JSVal.str m ∧
    getField (getField (Err e) "err") "code" = JSVal.str NO_ERROR_CODE ∧
    getField (getField (Err e) "err") "show" = JSVal.bool false ∧
    hasField (getField (Err e) "err") "code" = true ∧
    hasField (getField (Err e) "err") "show" = true := by
  have h2 : lookupJS (setJS e "code" (JSVal.str NO_ERROR_CODE)) "show" =
      lookupJS e "show" :=
    lookupJS_setJS_other e "code" "show" (JSVal.str NO_ERROR_CODE) (by decide)
  have hE : Err e = JSVal.obj [("ok", JSVal.bool false),
      ("err", JSVal.obj (setJS (setJS e "code" (JSVal.str NO_ERROR_CODE))
        "show" (JSVal.bool false)))] := by
    simp [Err, hcode, h2, hshow]
  rw [hE]
  refine ⟨rfl, ?_, ?_, ?_, ?_, ?_⟩
  · show lookupJS (setJS (setJS e "code" (JSVal.str NO_ERROR_CODE)) "show"
      (JSVal.bool false)) "msg" = JSVal.str m
    rw [lookupJS_setJS_other _ _ _ _ (by decide),
      lookupJS_setJS_other _ _ _ _ (by decide), hmsg]
  · show lookupJS (setJS (setJS e "code" (JSVal.str NO_ERROR_CODE)) "show"
      (JSVal.bool false)) "code" = JSVal.str NO_ERROR_CODE
    rw [lookupJS_setJS_other _ _ _ _ (by decide), lookupJS_setJS_same]
  · show lookupJS (setJS (setJS e "code" (JSVal.str NO_ERROR_CODE)) "show"
      (JSVal.bool false)) "show" = JSVal.bool false
    rw [lookupJS_setJS_same]
  · show hasKey (setJS (setJS e "code" (JSVal.str NO_ERROR_CODE)) "show"
      (JSVal.bool false)) "code" = true
    rw [hasKey_setJS_other _ _ _ _ (by decide), hasKey_setJS_same]
  · show hasKey (setJS (setJS e "code" (JSVal.str NO_ERROR_CODE)) "show"
      (JSVal.bool false)) "show" = true
    rw [hasKey_setJS_same]

/-- Witness for C1: `Err` applied to the record `{ msg: "boom" }`. -/
theorem Err_normalizes_defaults_witness :
    lookupJS [("msg", JSVal.str "boom")] "msg" = JSVal.str "boom" ∧
    truthy (lookupJS [("msg", JSVal.str "boom")] "code") = false ∧
    truthy (lookupJS [("msg", JSVal.str "boom")] "show") = false ∧
    getField (Err [("msg", JSVal.str "boom")]) "ok" = JSVal.bool false ∧
    getField (getField (Err [("msg", JSVal.str "boom")]) "err") "msg" =
      JSVal.str "boom" ∧
    getField (getField (Err [("msg", JSVal.str "boom")]) "err") "code" =
      JSVal.str NO_ERROR_CODE ∧
    getField (getField (Err [("msg", JSVal.str "boom")]) "err") "show" =
      JSVal.bool false :=
  have h := Err_normalizes_defaults [("msg", JSVal.str "boom")] "boom"
    rfl rfl rfl
  ⟨rfl, rfl, rfl, h.1, h.2.1, h.2.2.1, h.2.2.2.1⟩

/-- Claim C2: for every value `data` (`undefined` standing for an omitted
argument), `Ok data` is a success-tagged record with `ok` true and `data`
equal to the input; the operation cannot fail. -/
theorem Ok_spec (d : JSVal) :
    getField (Ok d) "ok" = JSVal.bool true ∧ getField (Ok d) "data" = d :=
  ⟨rfl, rfl⟩

/-- Claim C3: static `codeFromError` returns a truthy `code` field unchanged
and without coercion, and returns the sentinel "zeturn_unknown" whenever the
read of `code` is falsy (field absent, empty, zero, the whole input null or
undefined, and so on). -/
theorem staticCodeFromError_spec (v : JSVal) :
    (truthy (getField v "code") = true →
      Zeturn.staticCodeFromError v = getField v "code") ∧
    (truthy (getField v "code") = false →
      Zeturn.staticCodeFromError v = JSVal.str NOT_FOUND_CODE) := by
  constructor
  · intro h
    simp [Zeturn.staticCodeFromError, h]
  · intro h
    simp [Zeturn.staticCodeFromError, h]

/-- Witness for C3: the inputs `{ code: "X" }`, `{}`, `null` and
`undefined`. -/
theorem staticCodeFromError_spec_witness :
    (truthy (getField (JSVal.obj [("code", JSVal.str "X")]) "code") = true ∧
      Zeturn.staticCodeFromError (JSVal.obj [("code", JSVal.str "X")]) =
        getField (JSVal.obj [("code", JSVal.str "X")]) "code") ∧
    (truthy (getField (JSVal.obj []) "code") = false ∧
      Zeturn.staticCodeFromError (JSVal.obj []) =
        JSVal.str NOT_FOUND_CODE) ∧
    (truthy (getField JSVal.null "code") = false ∧
      Zeturn.staticCodeFromError JSVal.null = JSVal.str NOT_FOUND_CODE) ∧
    (truthy (getField JSVal.undefined "code") = false ∧
      Zeturn.staticCodeFromError JSVal.undefined =
        JSVal.str NOT_FOUND_CODE) :=
  ⟨⟨by decide, (staticCodeFromError_spec _).1 (by decide)⟩,
   ⟨rfl, (staticCodeFromError_spec _).2 rfl⟩,
   ⟨rfl, (staticCodeFromError_spec _).2 rfl⟩,
   ⟨rfl, (staticCodeFromError_spec _).2 rfl⟩⟩

/-- Claim C4: static `msgFromError` inspects the `message` field (not `msg`):
a truthy `message` is returned unchanged, and any input whose `message` read
is falsy (including `{}` and non-objects) yields the sentinel
"zeturn: unknown". -/
theorem staticMsgFromError_spec (v : JSVal) :
    (truthy (getField v "message") = true →
      Zeturn.staticMsgFromError v = getField v "message") ∧
    (truthy (getField v "message") = false →
      Zeturn.staticMsgFromError v = JSVal.str NOT_FOUND_MSG) := by
  constructor
  · intro h
    simp [Zeturn.staticMsgFromError, h]
  · intro h
    simp [Zeturn.staticMsgFromError, h]

/-- Witness for C4: the inputs `{ message: "hi" }`, `{}`, a record carrying
only `msg`, and a primitive string. -/
theorem staticMsgFromError_spec_witness :
    (truthy (getField (JSVal.obj [("message", JSVal.str "hi")]) "message") =
        true ∧
      Zeturn.staticMsgFromError (JSVal.obj [("message", JSVal.str "hi")]) =
        getField (JSVal.obj [("message", JSVal.str "hi")]) "message") ∧
    (truthy (getField (JSVal.obj []) "message") = false ∧
      Zeturn.staticMsgFromError (JSVal.obj []) = JSVal.str NOT_FOUND_MSG) ∧
    (truthy (getField (JSVal.obj [("msg", JSVal.str "hi")]) "message") =
        false ∧
      Zeturn.staticMsgFromError (JSVal.obj [("msg", JSVal.str "hi")]) =
        JSVal.str NOT_FOUND_MSG) ∧
    (truthy (getField (JSVal.str "oops") "message") = false ∧
      Zeturn.staticMsgFromError (JSVal.str "oops") =
        JSVal.str NOT_FOUND_MSG) :=
  ⟨⟨by decide, (staticMsgFromError_spec _).1 (by decide)⟩,
   ⟨rfl, (staticMsgFromError_spec _).2 rfl⟩,
   ⟨by decide, (staticMsgFromError_spec _).2 (by decide)⟩,
   ⟨rfl, (staticMsgFromError_spec _).2 rfl⟩⟩

/-- Claim C5: the four extraction operations are total over every modelled
input (they are Lean functions, so no call can throw), and a non-object input
— null, undefined, or any primitive — resolves to the applicable default,
exactly as a missing field does. -/
theorem extraction_never_throws (v : JSVal) (z : Zeturn)
    (h : isObj v = false) :
    Zeturn.staticCodeFromError v = JSVal.str NOT_FOUND_CODE ∧
    Zeturn.staticMsgFromError v = JSVal.str NOT_FOUND_MSG ∧
    Zeturn.codeFromError z v = JSVal.str z.notFoundCode ∧
    Zeturn.msgFromError z v = JSVal.str z.notFoundMsg := by
  cases v with
  | undefined => exact ⟨rfl, rfl, rfl, rfl⟩
  | null => exact ⟨rfl, rfl, rfl, rfl⟩
  | bool b => cases b with
    | false => exact ⟨rfl, rfl, rfl, rfl⟩
    | true => exact ⟨rfl, rfl, rfl, rfl⟩
  | num n => exact ⟨rfl, rfl, rfl, rfl⟩
  | str s => exact ⟨rfl, rfl, rfl, rfl⟩
  | obj fields => simp [isObj] at h

/-- Witness for C5: the input `null`, with the instance built from an empty
option object. -/
theorem extraction_never_throws_witness :
    isObj JSVal.null = false ∧
    (Zeturn.staticCodeFromError JSVal.null = JSVal.str NOT_FOUND_CODE ∧
     Zeturn.staticMsgFromError JSVal.null = JSVal.str NOT_FOUND_MSG ∧
     Zeturn.codeFromError (Zeturn.new ⟨none, none⟩) JSVal.null =
       JSVal.str (Zeturn.new ⟨none, none⟩).notFoundCode ∧
     Zeturn.msgFromError (Zeturn.new ⟨none, none⟩) JSVal.null =
       JSVal.str (Zeturn.new ⟨none, none⟩).notFoundMsg) :=
  ⟨rfl, extraction_never_throws JSVal.null (Zeturn.new ⟨none, none⟩) rfl⟩

/-- Claim C6: an instance constructed with only `notFoundCode` set to
"custom_code" returns "custom_code" from `codeFromError` on any input whose
`code` read is falsy, while its `msgFromError` still falls back to the global
sentinel "zeturn: unknown" on any input whose `message` read is falsy. -/
theorem custom_code_instance (v : JSVal)
    (hc : truthy (getField v "code") = false)
    (hm : truthy (getField v "message") = false) :
    Zeturn.codeFromError (Zeturn.new ⟨some "custom_code", none⟩) v =
      JSVal.str "custom_code" ∧
    Zeturn.msgFromError (Zeturn.new ⟨some "custom_code", none⟩) v =
      JSVal.str NOT_FOUND_MSG := by
  constructor
  · simp [Zeturn.codeFromError, hc, Zeturn.new, jsOr]
  · simp [Zeturn.msgFromError, hm, Zeturn.new, jsOr]

/-- Witness for C6: the empty object `{}`. -/
theorem custom_code_instance_witness :
    truthy (getField (JSVal.obj []) "code") = false ∧
    truthy (getField (JSVal.obj []) "message") = false ∧
    Zeturn.codeFromError (Zeturn.new ⟨some "custom_code", none⟩)
      (JSVal.obj []) = JSVal.str "custom_code" ∧
    Zeturn.msgFromError (Zeturn.new ⟨some "custom_code", none⟩)
      (JSVal.obj []) = JSVal.str NOT_FOUND_MSG :=
  have h := custom_code_instance (JSVal.obj []) rfl rfl
  ⟨rfl, rfl, h.1, h.2⟩

/-- Claim C7: when the input record's `code` and `show` are truthy, `Err`
leaves the whole error record untouched: the result is failure-tagged and
every field of `err` — `code`, `show`, `msg` and any extra field — reads
exactly as it does on the input. -/
theorem Err_preserves_truthy (e : List (String × JSVal))
    (hcode : truthy (lookupJS e "code") = true)
    (hshow : truthy (lookupJS e "show") = true) :
    getField (Err e) "ok" = JSVal.bool false ∧
    ∀ key, getField (getField (Err e) "err") key = lookupJS e key := by
  have hE : Err e = JSVal.obj [("ok", JSVal.bool false),
      ("err", JSVal.obj e)] := by
    simp [Err, hcode, hshow]
  rw [hE]
  exact ⟨rfl, fun key => rfl⟩

/-- Witness for C7: the record `{ msg: "bad", code: "E1", show: true,
extra: 7 }`, read back at its four fields. -/
theorem Err_preserves_truthy_witness :
    truthy (lookupJS [("msg", JSVal.str "bad"), ("code", JSVal.str "E1"),
      ("show", JSVal.bool true), ("extra", JSVal.num 7)] "code") = true ∧
    truthy (lookupJS [("msg", JSVal.str "bad"), ("code", JSVal.str "E1"),
      ("show", JSVal.bool true), ("extra", JSVal.num 7)] "show") = true ∧
    getField (Err [("msg", JSVal.str "bad"), ("code", JSVal.str "E1"),
      ("show", JSVal.bool true), ("extra", JSVal.num 7)]) "ok" =
      JSVal.bool false ∧
    getField (getField (Err [("msg", JSVal.str "bad"),
      ("code", JSVal.str "E1"), ("show", JSVal.bool true),
      ("extra", JSVal.num 7)]) "err") "code" = JSVal.str "E1" ∧
    getField (getField (Err [("msg", JSVal.str "bad"),
      ("code", JSVal.str "E1"), ("show", JSVal.bool true),
      ("extra", JSVal.num 7)]) "err") "show" = JSVal.bool true ∧
    getField (getField (Err [("msg", JSVal.str "bad"),
      ("code", JSVal.str "E1"), ("show", JSVal.bool true),
      ("extra", JSVal.num 7)]) "err") "msg" = JSVal.str "bad" ∧
    getField (getField (Err [("msg", JSVal.str "bad"),
      ("code", JSVal.str "E1"), ("show", JSVal.bool true),
      ("extra", JSVal.num 7)]) "err") "extra" = JSVal.num 7 :=
  have h := Err_preserves_truthy [("msg", JSVal.str "bad"),
    ("code", JSVal.str "E1"), ("show", JSVal.bool true),
    ("extra", JSVal.num 7)] (by decide) rfl
  ⟨by decide, rfl, h.1, (h.2 "code").trans rfl, (h.2 "show").trans rfl,
    (h.2 "msg").trans rfl, (h.2 "extra").trans rfl⟩

/-- Claim C8: the instance built with both overrides unset is extensionally
equal to shared-default mode: on every input, instance `codeFromError` and
`msgFromError` agree with the static operations. -/
theorem default_instance_matches_static (v : JSVal) :
    Zeturn.codeFromError (Zeturn.new ⟨none, none⟩) v =
      Zeturn.staticCodeFromError v ∧
    Zeturn.msgFromError (Zeturn.new ⟨none, none⟩) v =
      Zeturn.staticMsgFromError v :=
  ⟨rfl, rfl⟩

/-- Claim C9: every extraction operation is deterministic and has no hidden
state: it is a pure function of the input value and, in instance mode, the
configuration captured at construction, so two calls on the same input are
equal.  (The embedding is stateless because the source methods read only
their argument and the immutable sentinel or instance fields.) -/
theorem extraction_deterministic (z : Zeturn) (v : JSVal) :
    Zeturn.staticCodeFromError v = Zeturn.staticCodeFromError v ∧
    Zeturn.staticMsgFromError v = Zeturn.staticMsgFromError v ∧
    Zeturn.codeFromError z v = Zeturn.codeFromError z v ∧
    Zeturn.msgFromError z v = Zeturn.msgFromError z v :=
  ⟨rfl, rfl, rfl, rfl⟩

/-- Claim C10: a falsy configuration field supplied to the constructor — the
empty string — is replaced by the corresponding global sentinel, so the
instance behaves exactly like shared-default mode for that field, whatever
the other option is set to. -/
theorem falsy_override_not_honored (c m : Option String) (v : JSVal) :
    (Zeturn.new ⟨some "", m⟩).notFoundCode = NOT_FOUND_CODE ∧
    (Zeturn.new ⟨c, some ""⟩).notFoundMsg = NOT_FOUND_MSG ∧
    Zeturn.codeFromError (Zeturn.new ⟨some "", m⟩) v =
      Zeturn.staticCodeFromError v ∧
    Zeturn.msgFromError (Zeturn.new ⟨c, some ""⟩) v =
      Zeturn.staticMsgFromError v :=
  ⟨rfl, rfl, rfl, rfl⟩
